import Mathlib

/-!
Formal model of `docking-zscore-analysis.py` and verification of the
specification's claims about it.

Modelling conventions:
* Python strings are modelled as `List Char` (the program only ever indexes,
  splits and replaces characters).
* Python floats are modelled exactly: the parsed score texts are finite
  decimals, represented as rationals (`ℚ`); the derived statistics, which
  involve a square root, live in `ℝ`.  Python's `str`/`repr` of a float
  round-trips exactly through `float()`, so the score column of the written
  CSV file is modelled by the rational value it denotes.
* The `try/except ValueError` around `float()` is modelled by `Option`:
  `none` is the caught-failure result.
-/

namespace DockingZScore

/-- Numeric value of a run of decimal digit characters, most significant
digit first (`'0'` has code point 48). -/
def digitsToNat (l : List Char) : ℕ :=
  l.foldl (fun acc c => 10 * acc + (c.toNat - 48)) 0

/-- Model of CPython `float(text)` on an unsigned decimal literal: an integer
digit run, an optional point followed by a fractional digit run, with at
least one digit overall.  Exponents, `inf`/`nan`, underscore separators and
surrounding whitespace are accepted by CPython but are not modelled; no claim
quantifies over such inputs.  A failed parse (Python `ValueError`) is
`none`. -/
def pyFloatCore (cs : List Char) : Option ℚ :=
  let ip := cs.takeWhile Char.isDigit
  let rest := cs.dropWhile Char.isDigit
  if rest = [] then
    if ip = [] then none else some (digitsToNat ip : ℚ)
  else if rest.head? = some '.' then
    if rest.tail.all Char.isDigit = true ∧ ¬(ip = [] ∧ rest.tail = []) then
      some ((digitsToNat ip : ℚ) + (digitsToNat rest.tail : ℚ) / (10 : ℚ) ^ rest.tail.length)
    else none
  else none

/-- Model of CPython `float(text)`: an optional leading sign in front of an
unsigned decimal literal (`pyFloatCore`). -/
def pyFloat (cs : List Char) : Option ℚ :=
  if cs.head? = some '-' then (pyFloatCore cs.tail).map (fun q => -q)
  else if cs.head? = some '+' then pyFloatCore cs.tail
  else pyFloatCore cs

/-- `value.replace(',', '.')` (lines 23 and 26 of the source): replace every
comma by a point. -/
def replaceComma (cs : List Char) : List Char :=
  cs.map (fun c => if c = ',' then '.' else c)

/-- `value.split(',')[1]` under the guard `',' in value` (line 22 of the
source): the chunk strictly between the first comma and the next comma (or
the end of the text). -/
def splitSecond (cs : List Char) : List Char :=
  ((cs.dropWhile (fun c => c != ',')).tail).takeWhile (fun c => c != ',')

/-- `parse_float` (source lines 19-30).  Branch 1: a comma with at least two
characters after it — parse with commas replaced by points.  Branch 2: a
comma with fewer than two characters after it — additionally append two `'0'`
characters.  Branch 3: no comma — parse directly.  A `ValueError` raised by
`float` is caught and turned into `None` (`none`). -/
def parse_float (cs : List Char) : Option ℚ :=
  if ',' ∈ cs ∧ 2 ≤ (splitSecond cs).length then
    pyFloat (replaceComma cs)
  else if ',' ∈ cs then
    pyFloat (replaceComma cs ++ ['0', '0'])
  else
    pyFloat cs

/-! Helper lemmas about character scanning. -/

theorem takeWhile_eq_self {α : Type} {p : α → Bool} :
    ∀ {l : List α}, (∀ a ∈ l, p a = true) → l.takeWhile p = l
  | [], _ => rfl
  | a :: l, h => by
    rw [List.takeWhile_cons_of_pos (h a (List.mem_cons_self a l)),
      takeWhile_eq_self (fun b hb => h b (List.mem_cons_of_mem a hb))]

theorem digit_ne_comma {c : Char} (h : c.isDigit = true) : ¬(c = ',') := by
  rintro rfl
  exact absurd h (by decide)

theorem digit_ne_dot {c : Char} (h : c.isDigit = true) : ¬(c = '.') := by
  rintro rfl
  exact absurd h (by decide)

theorem digit_ne_minus {c : Char} (h : c.isDigit = true) : ¬(c = '-') := by
  rintro rfl
  exact absurd h (by decide)

theorem digit_ne_plus {c : Char} (h : c.isDigit = true) : ¬(c = '+') := by
  rintro rfl
  exact absurd h (by decide)

theorem digit_bne_comma {c : Char} (h : c.isDigit = true) : (c != ',') = true := by
  simpa using digit_ne_comma h

/-- `splitSecond` on a text of the shape `sign ++ digits ++ "," ++ digits`
returns exactly the digit run after the comma. -/
theorem splitSecond_eval {s d1 d2 : List Char} (hs : s = [] ∨ s = ['-'])
    (h1d : ∀ c ∈ d1, c.isDigit = true) (h2d : ∀ c ∈ d2, c.isDigit = true) :
    splitSecond (s ++ d1 ++ ',' :: d2) = d2 := by
  have hsp : ∀ c ∈ s, (c != ',') = true := by
    rcases hs with rfl | rfl
    · intro c hc
      exact absurd hc (List.not_mem_nil c)
    · intro c hc
      rw [List.mem_singleton] at hc
      subst hc
      decide
  have h1p : ∀ c ∈ d1, (c != ',') = true := fun c hc => digit_bne_comma (h1d c hc)
  unfold splitSecond
  rw [List.append_assoc, List.dropWhile_append_of_pos hsp,
    List.dropWhile_append_of_pos h1p,
    List.dropWhile_cons_of_neg (p := fun c => c != ',')
      (by decide : ¬((',' != ',') = true))]
  exact takeWhile_eq_self (fun c hc => digit_bne_comma (h2d c hc))

/-- `replaceComma` on a text of the shape `sign ++ digits ++ "," ++ digits`
replaces exactly the one comma. -/
theorem replaceComma_eval {s d1 d2 : List Char} (hs : s = [] ∨ s = ['-'])
    (h1d : ∀ c ∈ d1, c.isDigit = true) (h2d : ∀ c ∈ d2, c.isDigit = true) :
    replaceComma (s ++ d1 ++ ',' :: d2) = s ++ d1 ++ '.' :: d2 := by
  have hid : ∀ (l : List Char), (∀ c ∈ l, ¬(c = ',')) → replaceComma l = l := by
    intro l hl
    unfold replaceComma
    rw [List.map_congr_left (fun c hc => if_neg (hl c hc))]
    exact List.map_id' l
  unfold replaceComma
  rw [List.map_append, List.map_append, List.map_cons, if_pos rfl]
  unfold replaceComma at hid
  rw [hid s ?hs, hid d1 (fun c hc => digit_ne_comma (h1d c hc)),
    hid d2 (fun c hc => digit_ne_comma (h2d c hc))]
  case hs =>
    rcases hs with rfl | rfl
    · intro c hc
      exact absurd hc (List.not_mem_nil c)
    · intro c hc
      rw [List.mem_singleton] at hc
      subst hc
      decide

/-- `pyFloatCore` succeeds on `digits ++ "." ++ digits` with at least one
digit present. -/
theorem pyFloatCore_digits_dot {d1 d2 : List Char}
    (h1d : ∀ c ∈ d1, c.isDigit = true) (h2d : ∀ c ∈ d2, c.isDigit = true)
    (hne : ¬(d1 = [] ∧ d2 = [])) :
    pyFloatCore (d1 ++ '.' :: d2) =
      some ((digitsToNat d1 : ℚ) + (digitsToNat d2 : ℚ) / (10 : ℚ) ^ d2.length) := by
  have htake : (d1 ++ '.' :: d2).takeWhile Char.isDigit = d1 := by
    rw [List.takeWhile_append_of_pos h1d,
      List.takeWhile_cons_of_neg (by decide : ¬(Char.isDigit '.' = true)),
      List.append_nil]
  have hdrop : (d1 ++ '.' :: d2).dropWhile Char.isDigit = '.' :: d2 := by
    rw [List.dropWhile_append_of_pos h1d,
      List.dropWhile_cons_of_neg (by decide : ¬(Char.isDigit '.' = true))]
  unfold pyFloatCore
  rw [htake, hdrop]
  simp only [List.head?_cons, List.tail_cons]
  rw [if_neg (by simp), if_pos trivial, if_pos ?cond]
  case cond =>
    refine ⟨?_, hne⟩
    rw [List.all_eq_true]
    exact h2d

/-- `pyFloat` succeeds on `sign ++ digits ++ "." ++ digits` with a nonempty
integer digit run. -/
theorem pyFloat_isSome {s d1 d2 : List Char} (hs : s = [] ∨ s = ['-'])
    (h1 : d1 ≠ []) (h1d : ∀ c ∈ d1, c.isDigit = true)
    (h2d : ∀ c ∈ d2, c.isDigit = true) :
    (pyFloat (s ++ d1 ++ '.' :: d2)).isSome = true := by
  have hcore := pyFloatCore_digits_dot h1d h2d (fun hc => h1 hc.1)
  rcases hs with rfl | rfl
  · rw [List.nil_append]
    cases d1 with
    | nil => exact absurd rfl h1
    | cons c d1' =>
      have hc : c.isDigit = true := h1d c (List.mem_cons_self c d1')
      unfold pyFloat
      rw [List.cons_append, List.head?_cons,
        if_neg (by simpa using fun h => digit_ne_minus hc h),
        if_neg (by simpa using fun h => digit_ne_plus hc h), ← List.cons_append, hcore]
      rfl
  · unfold pyFloat
    rw [List.append_assoc, List.singleton_append, List.head?_cons, if_pos rfl,
      List.tail_cons, hcore]
    rfl

theorem dropWhile_eq_nil {α : Type} {p : α → Bool} :
    ∀ {l : List α}, (∀ a ∈ l, p a = true) → l.dropWhile p = []
  | [], _ => rfl
  | a :: l, h => by
    rw [List.dropWhile_cons_of_pos (h a (List.mem_cons_self a l))]
    exact dropWhile_eq_nil (fun b hb => h b (List.mem_cons_of_mem a hb))

/-- `pyFloatCore` on a nonempty pure digit run returns its numeric value. -/
theorem pyFloatCore_digits {d : List Char} (hd : d ≠ [])
    (hdd : ∀ c ∈ d, c.isDigit = true) :
    pyFloatCore d = some (digitsToNat d : ℚ) := by
  unfold pyFloatCore
  rw [takeWhile_eq_self hdd, dropWhile_eq_nil hdd]
  rw [if_pos rfl, if_neg hd]

/-- `pyFloat` on a text starting with `'-'` negates the unsigned parse of the
rest. -/
theorem pyFloat_cons_neg (cs : List Char) :
    pyFloat ('-' :: cs) = (pyFloatCore cs).map (fun q => -q) := by
  unfold pyFloat
  rw [List.head?_cons, if_pos rfl, List.tail_cons]

/-- `pyFloat` on a text starting with a digit is the unsigned parse. -/
theorem pyFloat_head_digit {c : Char} (hc : c.isDigit = true) (cs : List Char) :
    pyFloat (c :: cs) = pyFloatCore (c :: cs) := by
  unfold pyFloat
  rw [List.head?_cons,
    if_neg (by simpa using fun h => digit_ne_minus hc h),
    if_neg (by simpa using fun h => digit_ne_plus hc h)]

/-- C1: on a text matching `-?\d+,\d{2,}` the parser takes branch 1 (comma
treated as a decimal point); on a comma-free text it parses directly; and
whenever the attempted numeric parse fails the result is `none`
("unparseable"), never an exception.  One theorem, three conjuncts, matching
the three sentences of the claim. -/
theorem c1_parser_rules :
    (∀ s d1 d2 : List Char, s = [] ∨ s = ['-'] → d1 ≠ [] →
      (∀ c ∈ d1, c.isDigit = true) → 2 ≤ d2.length → (∀ c ∈ d2, c.isDigit = true) →
      parse_float (s ++ d1 ++ ',' :: d2) = pyFloat (replaceComma (s ++ d1 ++ ',' :: d2)) ∧
        (parse_float (s ++ d1 ++ ',' :: d2)).isSome = true) ∧
    (∀ cs : List Char, ',' ∉ cs → parse_float cs = pyFloat cs) ∧
    (∀ cs : List Char, pyFloat (replaceComma cs) = none →
      pyFloat (replaceComma cs ++ ['0', '0']) = none → pyFloat cs = none →
      parse_float cs = none) := by
  refine ⟨?_, ?_, ?_⟩
  · intro s d1 d2 hs h1 h1d h2len h2d
    have hmem : (',' : Char) ∈ s ++ d1 ++ ',' :: d2 := by simp
    have hsplit := splitSecond_eval hs h1d h2d
    have hbranch : parse_float (s ++ d1 ++ ',' :: d2) =
        pyFloat (replaceComma (s ++ d1 ++ ',' :: d2)) := by
      unfold parse_float
      rw [if_pos ⟨hmem, by rw [hsplit]; exact h2len⟩]
    refine ⟨hbranch, ?_⟩
    rw [hbranch, replaceComma_eval hs h1d h2d]
    exact pyFloat_isSome hs h1 h1d h2d
  · intro cs hcs
    unfold parse_float
    rw [if_neg (fun hc => hcs hc.1), if_neg hcs]
  · intro cs hA hB hC
    unfold parse_float
    split
    · exact hA
    · split
      · exact hB
      · exact hC

/-- Witness for C1: the theorem applied to the concrete text `"-12,34"`
(which matches `-?\d+,\d{2,}`), to the comma-free text `"9.5"`, and to the
garbage text `"abc"`. -/
theorem c1_parser_rules_witness :
    parse_float (['-'] ++ ['1', '2'] ++ ',' :: ['3', '4']) =
      pyFloat (replaceComma (['-'] ++ ['1', '2'] ++ ',' :: ['3', '4'])) ∧
    parse_float "9.5".data = pyFloat "9.5".data ∧
    parse_float "abc".data = none :=
  ⟨(c1_parser_rules.1 ['-'] ['1', '2'] ['3', '4'] (Or.inr rfl) (by decide)
      (by decide) (by decide) (by decide)).1,
    c1_parser_rules.2.1 "9.5".data (by decide),
    c1_parser_rules.2.2 "abc".data (by decide) (by decide) (by decide)⟩

/-- C2: with a comma followed by fewer than two characters the parser takes
branch 2 — comma replaced by a point, then two `'0'` characters appended
before parsing; `"-7,5"` parses to `-7.50`, `"-7,50"` parses to `-7.50`
directly, and `"-7,"` (empty fractional part, raw length check on the
substring after the separator) also takes branch 2 and parses to `-7`. -/
theorem c2_comma_short_fraction :
    (∀ cs : List Char, ',' ∈ cs → (splitSecond cs).length < 2 →
      parse_float cs = pyFloat (replaceComma cs ++ ['0', '0'])) ∧
    parse_float "-7,5".data = some (-(75 / 10)) ∧
    parse_float "-7,50".data = some (-(75 / 10)) ∧
    parse_float "-7,".data = some (-7) := by
  have hrule : ∀ cs : List Char, ',' ∈ cs → (splitSecond cs).length < 2 →
      parse_float cs = pyFloat (replaceComma cs ++ ['0', '0']) := by
    intro cs hmem hlen
    unfold parse_float
    rw [if_neg (fun h => absurd h.2 (not_le.mpr hlen)), if_pos hmem]
  refine ⟨hrule, ?_, ?_, ?_⟩
  · rw [hrule _ (by decide) (by decide),
      show replaceComma "-7,5".data ++ ['0', '0'] =
        '-' :: (['7'] ++ '.' :: ['5', '0', '0']) from rfl,
      pyFloat_cons_neg, pyFloatCore_digits_dot (by decide) (by decide) (by decide),
      Option.map_some']
    norm_num [show digitsToNat ['7'] = 7 from rfl,
      show digitsToNat ['5', '0', '0'] = 500 from rfl]
  · have hbranch1 : parse_float "-7,50".data = pyFloat (replaceComma "-7,50".data) := by
      unfold parse_float
      rw [if_pos ⟨by decide, by decide⟩]
    rw [hbranch1,
      show replaceComma "-7,50".data = '-' :: (['7'] ++ '.' :: ['5', '0']) from rfl,
      pyFloat_cons_neg, pyFloatCore_digits_dot (by decide) (by decide) (by decide),
      Option.map_some']
    norm_num [show digitsToNat ['7'] = 7 from rfl,
      show digitsToNat ['5', '0'] = 50 from rfl]
  · rw [hrule _ (by decide) (by decide),
      show replaceComma "-7,".data ++ ['0', '0'] =
        '-' :: (['7'] ++ '.' :: ['0', '0']) from rfl,
      pyFloat_cons_neg, pyFloatCore_digits_dot (by decide) (by decide) (by decide),
      Option.map_some']
    norm_num [show digitsToNat ['7'] = 7 from rfl,
      show digitsToNat ['0', '0'] = 0 from rfl]

/-- Witness for C2: its general rule applied to the concrete text `"-7,"`
(comma with an empty fractional part). -/
theorem c2_comma_short_fraction_witness :
    parse_float "-7,".data = pyFloat (replaceComma "-7,".data ++ ['0', '0']) :=
  c2_comma_short_fraction.1 "-7,".data (by decide) (by decide)

/-- C3: `parse_float` is total — on every input it returns either a numeric
value or the explicit "unparseable" `none`; there is no exceptional result in
its codomain (the `ValueError` from `float` is caught inside it). -/
theorem c3_parse_float_total (cs : List Char) :
    parse_float cs = none ∨ ∃ q : ℚ, parse_float cs = some q := by
  cases h : parse_float cs with
  | none => exact Or.inl rfl
  | some q => exact Or.inr ⟨q, rfl⟩

/-! ## The pipeline of `main` (source lines 51-98)

An input row, as produced by `csv.DictReader` over the input file, is the
pair of the `Title` cell (a name, kept abstract as `String`) and the raw
text of the `docking score` cell (`List Char`, fed to `parse_float`). -/

/-- Line 76: `data = [(row['Title'], parse_float(row['docking score'])) for
row in reader]`. -/
def loadData (rows : List (String × List Char)) : List (String × Option ℚ) :=
  rows.map (fun r => (r.1, parse_float r.2))

/-- Line 79: `data = [(molecule, value) for molecule, value in data if value
is not None]`.  The `Option` layer is stripped together with the filtering,
so the element type records that every retained row has a parsed score. -/
def parsedData (rows : List (String × List Char)) : List (String × ℚ) :=
  (loadData rows).filterMap (fun p => p.2.map (fun v => (p.1, v)))

/-- Line 82: `docking_scores = np.array([item[1] for item in data])`. -/
def scoresOf (rows : List (String × List Char)) : List ℚ :=
  (parsedData rows).map (fun p => p.2)

/-- `np.mean`: the arithmetic mean — sum divided by the count N (0 on the
empty list under Lean's zero-denominator convention; NumPy yields NaN there,
and no claim depends on the statistics of an empty column). -/
def npMean (l : List ℚ) : ℚ := l.sum / l.length

/-- The square of `np.std` at its default `ddof=0`: the population variance,
the mean of the squared deviations about the mean — denominator N, not
N-1. -/
def npVar (l : List ℚ) : ℚ := (l.map (fun x => (x - npMean l) ^ 2)).sum / l.length

/-- `np.std(...)` (line 83, default `ddof=0`): the population standard
deviation. -/
noncomputable def npStd (l : List ℚ) : ℝ := Real.sqrt (npVar l)

/-- Line 83: the z-score `(x - np.mean(docking_scores)) / np.std(docking_scores)`
of a value against a score column. -/
noncomputable def zval (l : List ℚ) (x : ℚ) : ℝ := ((x : ℝ) - (npMean l : ℝ)) / npStd l

/-- Line 83: `z_scores`, positionally aligned with `docking_scores`. -/
noncomputable def zScoresOf (rows : List (String × List Char)) : List ℝ :=
  (scoresOf rows).map (zval (scoresOf rows))

/-- Line 71: `z_score_threshold_lower = -1.960`. -/
def z_score_threshold_lower : ℚ := -196 / 100

/-- Line 89: `data = [(item[0], item[1], z) for item, z in zip(data,
z_scores)]` — each parsed row with its z-score attached. -/
noncomputable def scoredData (rows : List (String × List Char)) :
    List (String × ℚ × ℝ) :=
  ((parsedData rows).zip (zScoresOf rows)).map (fun pz => (pz.1.1, pz.1.2, pz.2))

/-- The value displayed by `'{:.6f}'.format(z)` (line 86) as an integer count
of 10⁻⁶ units: the z-score scaled by 10⁶ and rounded to the nearest integer.
The rendering of that integer as a fixed-point string is not modelled. -/
noncomputable def fmt6 (z : ℝ) : ℤ := round (z * 10 ^ 6)

theorem npVar_nonneg (l : List ℚ) : 0 ≤ npVar l := by
  unfold npVar
  apply div_nonneg
  · apply List.sum_nonneg
    intro x hx
    obtain ⟨y, -, rfl⟩ := List.mem_map.mp hx
    positivity
  · positivity

/-- The filter condition of line 86, `z <= z_score_threshold_lower`, reduced
to rational arithmetic: with `v` the population variance, `a = x - mean` and
`t` the (negative) threshold, `a / √v ≤ t` holds iff `v` is positive, `a` is
nonpositive and `t² · v ≤ a²`.  (When `v = 0` the Lean convention gives
`z = a / 0 = 0 > t`; NumPy gives NaN there, whose comparison with the
threshold is likewise false, so no row is selected either way.) -/
theorem zval_le_threshold_iff (l : List ℚ) (x : ℚ) :
    zval l x ≤ (z_score_threshold_lower : ℝ) ↔
      0 < npVar l ∧ x - npMean l ≤ 0 ∧
        z_score_threshold_lower ^ 2 * npVar l ≤ (x - npMean l) ^ 2 := by
  have hv : (0 : ℚ) ≤ npVar l := npVar_nonneg l
  have ht : ((z_score_threshold_lower : ℚ) : ℝ) < 0 := by
    norm_num [z_score_threshold_lower]
  rcases eq_or_lt_of_le hv with hv0 | hv0
  · have hstd : npStd l = 0 := by
      unfold npStd
      rw [← hv0, Rat.cast_zero, Real.sqrt_zero]
    have hz : zval l x = 0 := by
      unfold zval
      rw [hstd, div_zero]
    rw [hz]
    constructor
    · intro h
      linarith
    · rintro ⟨h1, -, -⟩
      rw [← hv0] at h1
      exact absurd h1 (lt_irrefl 0)
  · have hvR : (0 : ℝ) < ((npVar l : ℚ) : ℝ) := by exact_mod_cast hv0
    have hs : 0 < npStd l := Real.sqrt_pos.mpr hvR
    have hs2 : npStd l ^ 2 = ((npVar l : ℚ) : ℝ) := Real.sq_sqrt hvR.le
    have key : ∀ a t s : ℝ, t < 0 → 0 < s →
        (a ≤ t * s ↔ a ≤ 0 ∧ t ^ 2 * s ^ 2 ≤ a ^ 2) := by
      intro a t s htn hsp
      have hts : t * s < 0 := mul_neg_of_neg_of_pos htn hsp
      constructor
      · intro h
        refine ⟨le_trans h hts.le, ?_⟩
        have h1 : -(t * s) ≤ -a := neg_le_neg h
        have h2 := pow_le_pow_left₀ (neg_nonneg.mpr hts.le) h1 2
        calc t ^ 2 * s ^ 2 = (-(t * s)) ^ 2 := by ring
          _ ≤ (-a) ^ 2 := h2
          _ = a ^ 2 := by ring
      · rintro ⟨ha, hsq⟩
        have h2 : (-(t * s)) ^ 2 ≤ (-a) ^ 2 := by
          calc (-(t * s)) ^ 2 = t ^ 2 * s ^ 2 := by ring
            _ ≤ a ^ 2 := hsq
            _ = (-a) ^ 2 := by ring
        have h3 := (pow_le_pow_iff_left₀ (neg_nonneg.mpr hts.le)
          (neg_nonneg.mpr ha) two_ne_zero).mp h2
        linarith
    unfold zval
    rw [div_le_iff₀ hs, key _ _ _ ht hs, hs2]
    constructor
    · rintro ⟨h1, h2⟩
      refine ⟨hv0, ?_, ?_⟩
      · exact_mod_cast h1
      · exact_mod_cast h2
    · rintro ⟨-, h1, h2⟩
      exact ⟨by exact_mod_cast h1, by exact_mod_cast h2⟩

/-- The comparison `z <= z_score_threshold_lower` of line 86 is decidable via
`zval_le_threshold_iff`. -/
instance zvalLeThresholdDecidable (l : List ℚ) (x : ℚ) :
    Decidable (zval l x ≤ (z_score_threshold_lower : ℝ)) :=
  decidable_of_iff _ (zval_le_threshold_iff l x).symm

/-- Line 86: `selected_data = [(item[0], item[1], '{:.6f}'.format(z)) for
item, z in zip(data, z_scores) if z <= z_score_threshold_lower]`.  Since
`z_scores` is computed positionally from `data` (line 83), filtering the zip
on the z-score is the same as filtering `data` on the z-score of its score
field; the literal zip form is recovered by `selectedData_eq_zip_form`. -/
noncomputable def selectedData (rows : List (String × List Char)) :
    List (String × ℚ × ℤ) :=
  ((parsedData rows).filter
      (fun p => decide (zval (scoresOf rows) p.2 ≤ (z_score_threshold_lower : ℝ)))).map
    (fun p => (p.1, p.2, fmt6 (zval (scoresOf rows) p.2)))

/-- The raw selection test on an already-computed z-score, with classical
decidability (the comparison of an arbitrary real is not effective). -/
noncomputable def selB (z : ℝ) : Bool :=
  @decide (z ≤ (z_score_threshold_lower : ℝ))
    (Classical.propDecidable (z ≤ (z_score_threshold_lower : ℝ)))

/-- The comprehension of line 86 exactly as written: filter the zip of `data`
with `z_scores` on the z-score component, then format. -/
noncomputable def selectedDataZip (rows : List (String × List Char)) :
    List (String × ℚ × ℤ) :=
  (((parsedData rows).zip (zScoresOf rows)).filter (fun pz => selB pz.2)).map
    (fun pz => (pz.1.1, pz.1.2, fmt6 pz.2))

theorem zip_filter_map_collapse {α β γ : Type} (g : α → β) (q : β → Bool)
    (h : α × β → γ) :
    ∀ l : List α,
      ((l.zip (l.map g)).filter (fun pz => q pz.2)).map h =
        (l.filter (fun a => q (g a))).map (fun a => h (a, g a))
  | [] => rfl
  | a :: l => by
    rw [List.map_cons, List.zip_cons_cons, List.filter_cons, List.filter_cons]
    cases hq : q (g a) with
    | true =>
      rw [if_pos rfl, if_pos rfl, List.map_cons, List.map_cons,
        zip_filter_map_collapse g q h l]
    | false =>
      rw [if_neg (by simp), if_neg (by simp),
        zip_filter_map_collapse g q h l]

/-- `selectedData` equals the literal zip-comprehension of source line 86. -/
theorem selectedData_eq_zip_form (rows : List (String × List Char)) :
    selectedData rows = selectedDataZip rows := by
  have h1 : zScoresOf rows = (parsedData rows).map (fun p => zval (scoresOf rows) p.2) := by
    unfold zScoresOf scoresOf
    rw [List.map_map]
    rfl
  have h2 := zip_filter_map_collapse (fun p : String × ℚ => zval (scoresOf rows) p.2)
    selB (fun pz : (String × ℚ) × ℝ => (pz.1.1, pz.1.2, fmt6 pz.2)) (parsedData rows)
  have h3 : selectedDataZip rows =
      ((parsedData rows).filter (fun a => selB (zval (scoresOf rows) a.2))).map
        (fun a => (a.1, a.2, fmt6 (zval (scoresOf rows) a.2))) := by
    unfold selectedDataZip
    rw [h1]
    exact h2
  rw [h3]
  unfold selectedData
  rw [List.filter_congr (fun p _ => ?_)]
  unfold selB
  exact (decide_eq_decide.mpr Iff.rfl).symm

/-! ## Output artifacts and the rest of `main` (source lines 92-172) -/

/-- The Python exceptions that `main` can raise past the z-score plot:
`IndexError` from `data[-1]` on an empty row list (line 45) and `ValueError`
from `min`/`max` on an empty sequence (line 159). -/
inductive RunError where
  | indexError
  | valueError
deriving DecidableEq

/-- A data row of the written filtered CSV file (lines 92-98): the `Title`
cell, the `docking score` cell and the `Z Score` cell.  Python's `str` of a
float round-trips exactly through `float()`, so the score cell is modelled by
the rational it denotes; the z-score cell holds the formatted value
(`fmt6`). -/
structure OutRow where
  title : String
  score : ℚ
  zstr : ℤ
deriving DecidableEq

/-- The written filtered CSV file: the header line and the data rows. -/
structure OutFile where
  header : List String
  rows : List OutRow
deriving DecidableEq

/-- Line 93: `fieldnames = [molecule_name_column, docking_score_column, 'Z Score']`. -/
def csvFieldnames : List String := ["Title", "docking score", "Z Score"]

/-- Lines 92-98: write the fresh header and one row per selected record, in
order. -/
def writeCsv (sel : List (String × ℚ × ℤ)) : OutFile :=
  { header := csvFieldnames,
    rows := sel.map (fun t => { title := t.1, score := t.2.1, zstr := t.2.2 }) }

/-- `print_last_molecule_docking` (lines 38-49): re-read the written CSV,
take `data[-1]` — an `IndexError` when the file has no data rows — and
return `float(docking_score)` of that last row. -/
def print_last_molecule_docking (f : OutFile) : Except RunError ℚ :=
  match f.rows.getLast? with
  | none => Except.error RunError.indexError
  | some r => Except.ok r.score

/-- The rendered PDF document (lines 100-129): title line, count line,
bordered header cells, and one table row per selected record. -/
structure PdfDoc where
  titleLine : String
  countLine : String
  headerCells : List String
  tableRows : List (String × ℚ × ℤ)
deriving DecidableEq

/-- Lines 106-126: the document built from `selected_data`; line 110 renders
the count of selected compounds. -/
def mkPdf (sel : List (String × ℚ × ℤ)) : PdfDoc :=
  { titleLine := "Compounds with Z-Score <= -1.960",
    countLine := "Total Number of Selected Compounds: " ++ toString sel.length,
    headerCells := ["Compound ID", "Docking Score (kcal/mol)", "Calculated Z-Score"],
    tableRows := sel }

/-- The observable outcome of one run of `main`: the artifacts written before
any failure, and the error that terminated the run, if any. -/
structure RunResult where
  csvFile : OutFile
  pdf : PdfDoc
  zPlotSaved : Bool
  dockPlotSaved : Bool
  error : Option RunError

/-- `main` after loading (lines 74-79 produce `parsedData rows`), in source
order: the filtered CSV is written (92-98), the PDF is built and saved
(100-129), the z-score plot is saved (131-147), then the docking-score plot
section runs `min(docking_values)`/`max(docking_values)` over *all* parsed
scores (line 159) — a `ValueError` on an empty dataset — and re-reads the
written CSV via `print_last_molecule_docking` (line 164) — an `IndexError`
when no row was selected — before saving the docking-score plot (line
171). -/
noncomputable def runMain (rows : List (String × List Char)) : RunResult :=
  let sel := selectedData rows
  let file := writeCsv sel
  let pdf := mkPdf sel
  if (scoresOf rows).isEmpty then
    { csvFile := file, pdf := pdf, zPlotSaved := true, dockPlotSaved := false,
      error := some RunError.valueError }
  else
    match print_last_molecule_docking file with
    | Except.error e =>
        { csvFile := file, pdf := pdf, zPlotSaved := true, dockPlotSaved := false,
          error := some e }
    | Except.ok _ =>
        { csvFile := file, pdf := pdf, zPlotSaved := true, dockPlotSaved := true,
          error := none }

theorem runMain_csvFile (rows : List (String × List Char)) :
    (runMain rows).csvFile = writeCsv (selectedData rows) := by
  unfold runMain
  dsimp only
  split
  · rfl
  · split <;> rfl

theorem runMain_pdf (rows : List (String × List Char)) :
    (runMain rows).pdf = mkPdf (selectedData rows) := by
  unfold runMain
  dsimp only
  split
  · rfl
  · split <;> rfl

theorem runMain_zPlotSaved (rows : List (String × List Char)) :
    (runMain rows).zPlotSaved = true := by
  unfold runMain
  dsimp only
  split
  · rfl
  · split <;> rfl

/-! ## Evaluation lemmas for concrete inputs -/

/-- `parse_float` on a nonempty pure digit run (no comma, no point). -/
theorem parse_float_digits {d : List Char} (hd : d ≠ [])
    (hdd : ∀ c ∈ d, c.isDigit = true) :
    parse_float d = some (digitsToNat d : ℚ) := by
  have hnc : ¬((',' : Char) ∈ d) := fun hm => digit_ne_comma (hdd ',' hm) rfl
  unfold parse_float
  rw [if_neg (fun h => hnc h.1), if_neg hnc]
  cases d with
  | nil => exact absurd rfl hd
  | cons c d' =>
    rw [pyFloat_head_digit (hdd c (List.mem_cons_self c d')) d']
    exact pyFloatCore_digits hd hdd

/-- `parse_float` on `'-'` followed by a nonempty pure digit run. -/
theorem parse_float_neg_digits {d : List Char} (hd : d ≠ [])
    (hdd : ∀ c ∈ d, c.isDigit = true) :
    parse_float ('-' :: d) = some (-(digitsToNat d : ℚ)) := by
  have hnc : ¬((',' : Char) ∈ '-' :: d) := by
    intro hm
    rcases List.mem_cons.mp hm with h | h
    · exact absurd h (by decide)
    · exact digit_ne_comma (hdd ',' h) rfl
  unfold parse_float
  rw [if_neg (fun h => hnc h.1), if_neg hnc, pyFloat_cons_neg,
    pyFloatCore_digits hd hdd, Option.map_some']

/-- `parse_float` on `digits ++ "." ++ digits` with a nonempty integer
part. -/
theorem parse_float_digits_dot {d1 d2 : List Char} (h1 : d1 ≠ [])
    (h1d : ∀ c ∈ d1, c.isDigit = true) (h2d : ∀ c ∈ d2, c.isDigit = true) :
    parse_float (d1 ++ '.' :: d2) =
      some ((digitsToNat d1 : ℚ) + (digitsToNat d2 : ℚ) / (10 : ℚ) ^ d2.length) := by
  have hnc : ¬((',' : Char) ∈ d1 ++ '.' :: d2) := by
    intro hm
    rcases List.mem_append.mp hm with h | h
    · exact digit_ne_comma (h1d ',' h) rfl
    · rcases List.mem_cons.mp h with h' | h'
      · exact absurd h' (by decide)
      · exact digit_ne_comma (h2d ',' h') rfl
  unfold parse_float
  rw [if_neg (fun h => hnc h.1), if_neg hnc]
  cases d1 with
  | nil => exact absurd rfl h1
  | cons c d1' =>
    rw [List.cons_append,
      pyFloat_head_digit (h1d c (List.mem_cons_self c d1')) (d1' ++ '.' :: d2),
      ← List.cons_append]
    exact pyFloatCore_digits_dot h1d h2d (fun hc => h1 hc.1)

/-- One step of the load-and-filter phase (lines 76-79). -/
theorem parsedData_cons (r : String × List Char) (rs : List (String × List Char)) :
    parsedData (r :: rs) =
      match parse_float r.2 with
      | none => parsedData rs
      | some v => (r.1, v) :: parsedData rs := by
  unfold parsedData loadData
  rw [List.map_cons, List.filterMap_cons]
  cases parse_float r.2 <;> rfl

theorem zip_self_map {α β : Type} (g : α → β) :
    ∀ l : List α, l.zip (l.map g) = l.map (fun a => (a, g a))
  | [] => rfl
  | a :: l => by rw [List.map_cons, List.zip_cons_cons, zip_self_map g l, List.map_cons]

/-- The zip of line 89 aligns each parsed row with the z-score of its own
score: `scoredData` collapses to a map. -/
theorem scoredData_eq_map (rows : List (String × List Char)) :
    scoredData rows =
      (parsedData rows).map (fun q => (q.1, q.2, zval (scoresOf rows) q.2)) := by
  unfold scoredData
  have h1 : zScoresOf rows = (parsedData rows).map (fun q => zval (scoresOf rows) q.2) := by
    unfold zScoresOf scoresOf
    rw [List.map_map]
    rfl
  rw [h1, zip_self_map, List.map_map]
  rfl

/-! ## Concrete datasets used by the claims -/

/-- The symmetric 11-value dataset of the z-score testable property. -/
def D11 : List (String × List Char) :=
  [("M01", "-10".data), ("M02", "-8".data), ("M03", "-6".data), ("M04", "-4".data),
    ("M05", "-2".data), ("M06", "0".data), ("M07", "2".data), ("M08", "4".data),
    ("M09", "6".data), ("M10", "8".data), ("M11", "10".data)]

/-- The 5-row end-to-end dataset with raw scores `[1.0, 2.0, 3.0, 4.0, 100.0]`. -/
def R5 : List (String × List Char) :=
  [("M1", "1.0".data), ("M2", "2.0".data), ("M3", "3.0".data),
    ("M4", "4.0".data), ("M5", "100.0".data)]

/-- A dataset whose variance is a perfect square (mean −1, deviation squares
summing to 20, population variance 4) and whose last row has z-score −2,
below the −1.960 threshold: used to exercise a nonempty selection. -/
def Wsel : List (String × List Char) :=
  [("A", "0".data), ("B", "0".data), ("C", "0".data), ("D", "0".data),
    ("E", "-5".data)]

/-- A small dataset on which nothing is selected (z-scores ±1.22 at most). -/
def R3 : List (String × List Char) :=
  [("A", "1".data), ("B", "2".data), ("C", "3".data)]

theorem parsedData_D11 :
    parsedData D11 =
      [("M01", -10), ("M02", -8), ("M03", -6), ("M04", -4), ("M05", -2),
        ("M06", 0), ("M07", 2), ("M08", 4), ("M09", 6), ("M10", 8), ("M11", 10)] := by
  have e1 : parse_float "-10".data = some (-10 : ℚ) := by
    rw [show "-10".data = '-' :: ['1', '0'] from rfl,
      parse_float_neg_digits (by decide) (by decide)]
    norm_num [show digitsToNat ['1', '0'] = 10 from rfl]
  have e2 : parse_float "-8".data = some (-8 : ℚ) := by
    rw [show "-8".data = '-' :: ['8'] from rfl,
      parse_float_neg_digits (by decide) (by decide)]
    norm_num [show digitsToNat ['8'] = 8 from rfl]
  have e3 : parse_float "-6".data = some (-6 : ℚ) := by
    rw [show "-6".data = '-' :: ['6'] from rfl,
      parse_float_neg_digits (by decide) (by decide)]
    norm_num [show digitsToNat ['6'] = 6 from rfl]
  have e4 : parse_float "-4".data = some (-4 : ℚ) := by
    rw [show "-4".data = '-' :: ['4'] from rfl,
      parse_float_neg_digits (by decide) (by decide)]
    norm_num [show digitsToNat ['4'] = 4 from rfl]
  have e5 : parse_float "-2".data = some (-2 : ℚ) := by
    rw [show "-2".data = '-' :: ['2'] from rfl,
      parse_float_neg_digits (by decide) (by decide)]
    norm_num [show digitsToNat ['2'] = 2 from rfl]
  have e6 : parse_float "0".data = some (0 : ℚ) := by
    rw [parse_float_digits (by decide) (by decide)]
    norm_num [show digitsToNat "0".data = 0 from rfl]
  have e7 : parse_float "2".data = some (2 : ℚ) := by
    rw [parse_float_digits (by decide) (by decide)]
    norm_num [show digitsToNat "2".data = 2 from rfl]
  have e8 : parse_float "4".data = some (4 : ℚ) := by
    rw [parse_float_digits (by decide) (by decide)]
    norm_num [show digitsToNat "4".data = 4 from rfl]
  have e9 : parse_float "6".data = some (6 : ℚ) := by
    rw [parse_float_digits (by decide) (by decide)]
    norm_num [show digitsToNat "6".data = 6 from rfl]
  have e10 : parse_float "8".data = some (8 : ℚ) := by
    rw [parse_float_digits (by decide) (by decide)]
    norm_num [show digitsToNat "8".data = 8 from rfl]
  have e11 : parse_float "10".data = some (10 : ℚ) := by
    rw [parse_float_digits (by decide) (by decide)]
    norm_num [show digitsToNat "10".data = 10 from rfl]
  simp only [D11, parsedData_cons, e1, e2, e3, e4, e5, e6, e7, e8, e9, e10, e11]
  rfl

theorem scoresOf_D11 : scoresOf D11 = [-10, -8, -6, -4, -2, 0, 2, 4, 6, 8, 10] := by
  unfold scoresOf
  rw [parsedData_D11]
  rfl

theorem npMean_D11 : npMean (scoresOf D11) = 0 := by
  rw [scoresOf_D11]
  norm_num [npMean, List.sum_cons, List.sum_nil]

theorem npVar_D11 : npVar (scoresOf D11) = 40 := by
  unfold npVar
  rw [npMean_D11, scoresOf_D11]
  norm_num [List.sum_cons, List.sum_nil]

theorem parsedData_R5 :
    parsedData R5 = [("M1", 1), ("M2", 2), ("M3", 3), ("M4", 4), ("M5", 100)] := by
  have e1 : parse_float "1.0".data = some (1 : ℚ) := by
    rw [show "1.0".data = ['1'] ++ '.' :: ['0'] from rfl,
      parse_float_digits_dot (by decide) (by decide) (by decide)]
    norm_num [show digitsToNat ['1'] = 1 from rfl, show digitsToNat ['0'] = 0 from rfl]
  have e2 : parse_float "2.0".data = some (2 : ℚ) := by
    rw [show "2.0".data = ['2'] ++ '.' :: ['0'] from rfl,
      parse_float_digits_dot (by decide) (by decide) (by decide)]
    norm_num [show digitsToNat ['2'] = 2 from rfl, show digitsToNat ['0'] = 0 from rfl]
  have e3 : parse_float "3.0".data = some (3 : ℚ) := by
    rw [show "3.0".data = ['3'] ++ '.' :: ['0'] from rfl,
      parse_float_digits_dot (by decide) (by decide) (by decide)]
    norm_num [show digitsToNat ['3'] = 3 from rfl, show digitsToNat ['0'] = 0 from rfl]
  have e4 : parse_float "4.0".data = some (4 : ℚ) := by
    rw [show "4.0".data = ['4'] ++ '.' :: ['0'] from rfl,
      parse_float_digits_dot (by decide) (by decide) (by decide)]
    norm_num [show digitsToNat ['4'] = 4 from rfl, show digitsToNat ['0'] = 0 from rfl]
  have e5 : parse_float "100.0".data = some (100 : ℚ) := by
    rw [show "100.0".data = ['1', '0', '0'] ++ '.' :: ['0'] from rfl,
      parse_float_digits_dot (by decide) (by decide) (by decide)]
    norm_num [show digitsToNat ['1', '0', '0'] = 100 from rfl,
      show digitsToNat ['0'] = 0 from rfl]
  simp only [R5, parsedData_cons, e1, e2, e3, e4, e5]
  rfl

theorem scoresOf_R5 : scoresOf R5 = [1, 2, 3, 4, 100] := by
  unfold scoresOf
  rw [parsedData_R5]
  rfl

theorem npMean_R5 : npMean (scoresOf R5) = 22 := by
  rw [scoresOf_R5]
  norm_num [npMean, List.sum_cons, List.sum_nil]

theorem npVar_R5 : npVar (scoresOf R5) = 1522 := by
  unfold npVar
  rw [npMean_R5, scoresOf_R5]
  norm_num [List.sum_cons, List.sum_nil]

theorem selectedData_R5 : selectedData R5 = [] := by
  have hno : ∀ p ∈ parsedData R5,
      ¬(zval (scoresOf R5) p.2 ≤ (z_score_threshold_lower : ℝ)) := by
    intro p hp
    rw [zval_le_threshold_iff, npMean_R5, npVar_R5]
    rw [parsedData_R5] at hp
    simp only [List.mem_cons, List.not_mem_nil, or_false] at hp
    rcases hp with rfl | rfl | rfl | rfl | rfl <;>
      norm_num [z_score_threshold_lower]
  have h : (parsedData R5).filter
      (fun p => decide (zval (scoresOf R5) p.2 ≤ (z_score_threshold_lower : ℝ))) = [] :=
    List.filter_eq_nil_iff.mpr (fun a ha => by
      simp only [decide_eq_true_eq]
      exact hno a ha)
  unfold selectedData
  rw [h, List.map_nil]

theorem parsedData_Wsel :
    parsedData Wsel = [("A", 0), ("B", 0), ("C", 0), ("D", 0), ("E", -5)] := by
  have e0 : parse_float "0".data = some (0 : ℚ) := by
    rw [parse_float_digits (by decide) (by decide)]
    norm_num [show digitsToNat "0".data = 0 from rfl]
  have e5 : parse_float "-5".data = some (-5 : ℚ) := by
    rw [show "-5".data = '-' :: ['5'] from rfl,
      parse_float_neg_digits (by decide) (by decide)]
    norm_num [show digitsToNat ['5'] = 5 from rfl]
  simp only [Wsel, parsedData_cons, e0, e5]
  rfl

theorem scoresOf_Wsel : scoresOf Wsel = [0, 0, 0, 0, -5] := by
  unfold scoresOf
  rw [parsedData_Wsel]
  rfl

theorem npMean_Wsel : npMean (scoresOf Wsel) = -1 := by
  rw [scoresOf_Wsel]
  norm_num [npMean, List.sum_cons, List.sum_nil]

theorem npVar_Wsel : npVar (scoresOf Wsel) = 4 := by
  unfold npVar
  rw [npMean_Wsel, scoresOf_Wsel]
  norm_num [List.sum_cons, List.sum_nil]

theorem zWsel_zero : ¬(zval (scoresOf Wsel) 0 ≤ (z_score_threshold_lower : ℝ)) := by
  rw [zval_le_threshold_iff, npMean_Wsel, npVar_Wsel]
  norm_num [z_score_threshold_lower]

theorem zWsel_last : zval (scoresOf Wsel) (-5) ≤ (z_score_threshold_lower : ℝ) := by
  rw [zval_le_threshold_iff, npMean_Wsel, npVar_Wsel]
  norm_num [z_score_threshold_lower]

theorem selectedData_Wsel :
    selectedData Wsel = [("E", -5, fmt6 (zval (scoresOf Wsel) (-5)))] := by
  unfold selectedData
  rw [parsedData_Wsel]
  rw [List.filter_cons, List.filter_cons, List.filter_cons, List.filter_cons,
    List.filter_cons, List.filter_nil]
  rw [if_neg (by simp [zWsel_zero]), if_neg (by simp [zWsel_zero]),
    if_neg (by simp [zWsel_zero]), if_neg (by simp [zWsel_zero]),
    if_pos (by simp [zWsel_last])]
  rfl

theorem parsedData_R3 : parsedData R3 = [("A", 1), ("B", 2), ("C", 3)] := by
  have e1 : parse_float "1".data = some (1 : ℚ) := by
    rw [parse_float_digits (by decide) (by decide)]
    norm_num [show digitsToNat "1".data = 1 from rfl]
  have e2 : parse_float "2".data = some (2 : ℚ) := by
    rw [parse_float_digits (by decide) (by decide)]
    norm_num [show digitsToNat "2".data = 2 from rfl]
  have e3 : parse_float "3".data = some (3 : ℚ) := by
    rw [parse_float_digits (by decide) (by decide)]
    norm_num [show digitsToNat "3".data = 3 from rfl]
  simp only [R3, parsedData_cons, e1, e2, e3]
  rfl

theorem scoresOf_R3 : scoresOf R3 = [1, 2, 3] := by
  unfold scoresOf
  rw [parsedData_R3]
  rfl

theorem npMean_R3 : npMean (scoresOf R3) = 2 := by
  rw [scoresOf_R3]
  norm_num [npMean, List.sum_cons, List.sum_nil]

theorem npVar_R3 : npVar (scoresOf R3) = 2 / 3 := by
  unfold npVar
  rw [npMean_R3, scoresOf_R3]
  norm_num [List.sum_cons, List.sum_nil]

theorem selectedData_R3 : selectedData R3 = [] := by
  have hno : ∀ p ∈ parsedData R3,
      ¬(zval (scoresOf R3) p.2 ≤ (z_score_threshold_lower : ℝ)) := by
    intro p hp
    rw [zval_le_threshold_iff, npMean_R3, npVar_R3]
    rw [parsedData_R3] at hp
    simp only [List.mem_cons, List.not_mem_nil, or_false] at hp
    rcases hp with rfl | rfl | rfl <;>
      norm_num [z_score_threshold_lower]
  have h : (parsedData R3).filter
      (fun p => decide (zval (scoresOf R3) p.2 ≤ (z_score_threshold_lower : ℝ))) = [] :=
    List.filter_eq_nil_iff.mpr (fun a ha => by
      simp only [decide_eq_true_eq]
      exact hno a ha)
  unfold selectedData
  rw [h, List.map_nil]

/-! ## Claims C4-C10 -/

/-- C4: the z-score attached to each row of the scored dataset (line 89) is
`(x − mean) / √(population variance)` of the full parsed score column —
population statistics, denominator N — and on the dataset
`[-10, -8, ..., 8, 10]` the mean is 0, the population variance is 40 (the
sample convention would give 44), the z-score of 0 is 0 and the z-score of
−10 is negative. -/
theorem c4_zscore_formula :
    (∀ rows : List (String × List Char), ∀ p ∈ scoredData rows,
      p.2.2 = ((p.2.1 : ℝ) - (npMean (scoresOf rows) : ℝ)) /
        Real.sqrt ((npVar (scoresOf rows) : ℝ))) ∧
    npMean (scoresOf D11) = 0 ∧ npVar (scoresOf D11) = 40 ∧
    zval (scoresOf D11) 0 = 0 ∧ zval (scoresOf D11) (-10) < 0 := by
  refine ⟨?_, npMean_D11, npVar_D11, ?_, ?_⟩
  · intro rows p hp
    rw [scoredData_eq_map] at hp
    obtain ⟨q, hq, rfl⟩ := List.mem_map.mp hp
    rfl
  · unfold zval
    rw [npMean_D11]
    norm_num
  · unfold zval npStd
    rw [npMean_D11, npVar_D11]
    have hs : (0 : ℝ) < Real.sqrt ((40 : ℚ) : ℝ) := Real.sqrt_pos.mpr (by norm_num)
    apply div_neg_of_neg_of_pos _ hs
    norm_num

/-- Witness for C4: the formula applied to the row `("M06", 0, z)` of the
scored symmetric dataset. -/
theorem c4_zscore_formula_witness :
    zval (scoresOf D11) 0 =
      (((0 : ℚ) : ℝ) - (npMean (scoresOf D11) : ℝ)) /
        Real.sqrt ((npVar (scoresOf D11) : ℝ)) :=
  c4_zscore_formula.1 D11 ("M06", 0, zval (scoresOf D11) 0) (by
    rw [scoredData_eq_map, parsedData_D11]
    exact List.mem_map.mpr ⟨("M06", 0),
      List.mem_cons_of_mem _ (List.mem_cons_of_mem _ (List.mem_cons_of_mem _
        (List.mem_cons_of_mem _ (List.mem_cons_of_mem _ (List.mem_cons_self _ _))))),
      rfl⟩)

/-- C5: a parsed row appears (with its formatted z-score) in the filtered
selection of line 86 iff its z-score is at most the fixed constant −1.960,
and the formatted z-score field of every selected row is exactly the row's
computed z-score rounded to 6 decimal places (`fmt6`). -/
theorem c5_filter_rule (rows : List (String × List Char)) :
    (∀ p ∈ parsedData rows,
      ((p.1, p.2, fmt6 (zval (scoresOf rows) p.2)) ∈ selectedData rows ↔
        zval (scoresOf rows) p.2 ≤ (z_score_threshold_lower : ℝ))) ∧
    (∀ q ∈ selectedData rows, q.2.2 = fmt6 (zval (scoresOf rows) q.2.1)) := by
  constructor
  · intro p hp
    constructor
    · intro hsel
      unfold selectedData at hsel
      obtain ⟨p', hp', heq⟩ := List.mem_map.mp hsel
      have hp'2 : p'.2 = p.2 := congrArg (fun t : String × ℚ × ℤ => t.2.1) heq
      have hf := (List.mem_filter.mp hp').2
      rw [decide_eq_true_eq] at hf
      rw [← hp'2]
      exact hf
    · intro hz
      unfold selectedData
      exact List.mem_map.mpr ⟨p, List.mem_filter.mpr ⟨hp, decide_eq_true hz⟩, rfl⟩
  · intro q hq
    unfold selectedData at hq
    obtain ⟨p', hp', rfl⟩ := List.mem_map.mp hq
    rfl

/-- Witness for C5: on the perfect-square-variance dataset the row
`("E", -5)` (z-score −2) satisfies the membership equivalence. -/
theorem c5_filter_rule_witness :
    ("E", (-5 : ℚ), fmt6 (zval (scoresOf Wsel) (-5))) ∈ selectedData Wsel ↔
      zval (scoresOf Wsel) (-5) ≤ (z_score_threshold_lower : ℝ) :=
  (c5_filter_rule Wsel).1 ("E", -5) (by
    rw [parsedData_Wsel]
    exact List.mem_cons_of_mem _ (List.mem_cons_of_mem _ (List.mem_cons_of_mem _
      (List.mem_cons_of_mem _ (List.mem_cons_self _ _)))))

/-- C6: the rows of the written filtered file are an order-preserving
subsequence of the parsed dataset — filtering preserves the input row
order. -/
theorem c6_order_preserved (rows : List (String × List Char)) :
    List.Sublist
      (((writeCsv (selectedData rows)).rows).map (fun r => (r.title, r.score)))
      (parsedData rows) := by
  have h : ((writeCsv (selectedData rows)).rows).map (fun r => (r.title, r.score)) =
      (parsedData rows).filter
        (fun p => decide (zval (scoresOf rows) p.2 ≤ (z_score_threshold_lower : ℝ))) := by
    unfold writeCsv selectedData
    rw [List.map_map, List.map_map]
    exact List.map_id' _
  rw [h]
  exact List.filter_sublist _

/-- C7: every element of the parsed dataset comes from an input row whose
score text parses successfully, and exactly the unparseable rows are
silently dropped (the retained count equals the count of parseable rows);
nothing else of a dropped row is recorded. -/
theorem c7_parsed_invariant (rows : List (String × List Char)) :
    (∀ p ∈ parsedData rows, ∃ r ∈ rows, r.1 = p.1 ∧ parse_float r.2 = some p.2) ∧
    (parsedData rows).length =
      (rows.filter (fun r => (parse_float r.2).isSome)).length := by
  constructor
  · intro p hp
    unfold parsedData loadData at hp
    obtain ⟨a, ha, hga⟩ := List.mem_filterMap.mp hp
    obtain ⟨r, hr, rfl⟩ := List.mem_map.mp ha
    obtain ⟨v, hv, hpv⟩ := Option.map_eq_some'.mp hga
    have hv' : parse_float r.2 = some v := hv
    have hp2 : v = p.2 := congrArg Prod.snd hpv
    refine ⟨r, hr, ?_, ?_⟩
    · exact congrArg Prod.fst hpv
    · rw [hv', hp2]
  · induction rows with
    | nil => rfl
    | cons r rs ih =>
      rw [parsedData_cons, List.filter_cons]
      cases hv : parse_float r.2 with
      | none => simpa [hv] using ih
      | some v => simpa [hv] using ih

/-- Witness for C7: the first element of the parsed symmetric dataset indeed
stems from an input row parsing to −10. -/
theorem c7_parsed_invariant_witness :
    ∃ r ∈ D11, r.1 = "M01" ∧ parse_float r.2 = some (-10 : ℚ) :=
  (c7_parsed_invariant D11).1 ("M01", -10) (by
    rw [parsedData_D11]
    exact List.mem_cons_self _ _)

/-- C8: when the filtered selection is nonempty, re-reading the freshly
written filtered file and extracting the raw score of its last row (lines
38-49, 164) returns exactly the raw score of the last element of the
in-memory filtered sequence. -/
theorem c8_roundtrip (rows : List (String × List Char))
    (h : selectedData rows ≠ []) :
    print_last_molecule_docking (writeCsv (selectedData rows)) =
      Except.ok (((selectedData rows).getLast h).2.1) := by
  unfold print_last_molecule_docking writeCsv
  rw [List.getLast?_map, List.getLast?_eq_getLast _ h, Option.map_some']

/-- Witness for C8: on the perfect-square-variance dataset the selection is
the single row `("E", -5)` and the round trip recovers −5. -/
theorem c8_roundtrip_witness :
    print_last_molecule_docking (writeCsv (selectedData Wsel)) =
      Except.ok (-5 : ℚ) := by
  have h : selectedData Wsel ≠ [] := by
    rw [selectedData_Wsel]
    exact List.cons_ne_nil _ _
  have h3 : (selectedData Wsel).getLast? =
      some ("E", (-5 : ℚ), fmt6 (zval (scoresOf Wsel) (-5))) := by
    rw [selectedData_Wsel]
    rfl
  rw [List.getLast?_eq_getLast _ h] at h3
  rw [c8_roundtrip Wsel h, Option.some.inj h3]

/-- C9: on the 5-row input with raw scores `[1.0, 2.0, 3.0, 4.0, 100.0]`
(mean 22, population variance 1522), no row passes the −1.960 threshold: the
selection is empty, the written filtered file holds only the header, and the
document's count line reads "Total Number of Selected Compounds: 0". -/
theorem c9_end_to_end :
    npMean (scoresOf R5) = 22 ∧ npVar (scoresOf R5) = 1522 ∧
    selectedData R5 = [] ∧
    (runMain R5).csvFile = { header := csvFieldnames, rows := [] } ∧
    (runMain R5).pdf.countLine = "Total Number of Selected Compounds: 0" := by
  refine ⟨npMean_R5, npVar_R5, selectedData_R5, ?_, ?_⟩
  · rw [runMain_csvFile, selectedData_R5]
    rfl
  · rw [runMain_pdf, selectedData_R5]
    rfl

/-- Counterexample to C10 as stated: on an input whose only row is
unparseable the filtered subset is empty, yet the run does not fail with the
re-reading `IndexError` — it dies earlier, at `min(docking_values)` on the
empty score list (line 159), with a `ValueError`. -/
theorem c10_counterexample :
    ¬(selectedData [("A", "abc".data)] = [] →
      (runMain [("A", "abc".data)]).error = some RunError.indexError) := by
  intro himp
  have hparsed : parsedData [("A", "abc".data)] = [] := by
    rw [parsedData_cons, show parse_float "abc".data = none from by decide]
    rfl
  have hsel : selectedData [("A", "abc".data)] = [] := by
    unfold selectedData
    rw [hparsed]
    rfl
  have hscores : scoresOf [("A", "abc".data)] = [] := by
    unfold scoresOf
    rw [hparsed]
    rfl
  have herr : (runMain [("A", "abc".data)]).error = some RunError.valueError := by
    unfold runMain
    dsimp only
    rw [if_pos (by rw [hscores]; rfl)]
  have := himp hsel
  rw [herr] at this
  exact RunError.noConfusion (Option.some.inj this)

/-- C10 (amended): when the parsed dataset is nonempty and the filtered
subset is empty, the run fails with an uncaught `IndexError` while
re-reading the just-written filtered file, after the filtered CSV, the
document and the z-score plot are produced but before the docking-score plot
is saved. -/
theorem c10_empty_selection_behavior (rows : List (String × List Char))
    (hne : parsedData rows ≠ []) (hsel : selectedData rows = []) :
    (runMain rows).error = some RunError.indexError ∧
    (runMain rows).zPlotSaved = true ∧
    (runMain rows).dockPlotSaved = false ∧
    (runMain rows).csvFile = writeCsv (selectedData rows) ∧
    (runMain rows).pdf = mkPdf (selectedData rows) := by
  have hscores : (scoresOf rows).isEmpty = false := by
    unfold scoresOf
    cases h : parsedData rows with
    | nil => exact absurd h hne
    | cons a l => rfl
  have hpld : print_last_molecule_docking (writeCsv (selectedData rows)) =
      Except.error RunError.indexError := by
    unfold print_last_molecule_docking writeCsv
    rw [hsel]
    rfl
  refine ⟨?_, runMain_zPlotSaved rows, ?_, runMain_csvFile rows, runMain_pdf rows⟩
  · unfold runMain
    dsimp only
    rw [if_neg (by simp [hscores]), hpld]
  · unfold runMain
    dsimp only
    rw [if_neg (by simp [hscores]), hpld]

/-- Witness for the amended C10: on the dataset with scores `[1, 2, 3]`
(z-scores at most 1.23 in magnitude) the parsed dataset is nonempty, the
selection is empty, and the run indeed ends in the `IndexError` with the
docking-score plot unsaved. -/
theorem c10_empty_selection_behavior_witness :
    (runMain R3).error = some RunError.indexError ∧
    (runMain R3).dockPlotSaved = false :=
  ⟨(c10_empty_selection_behavior R3
      (by rw [parsedData_R3]; exact List.cons_ne_nil _ _) selectedData_R3).1,
    (c10_empty_selection_behavior R3
      (by rw [parsedData_R3]; exact List.cons_ne_nil _ _) selectedData_R3).2.2.1⟩

end DockingZScore
